import Mathlib

/-!
Verification development for the Satyland indicator engine
(`api/indicators/satyland/`): a shallow embedding over ℚ of the five pure
indicator components (`atr_levels`, `pivot_ribbon`, `phase_oscillator`,
`price_structure`, `green_flag_checklist`) together with their shared
numerical primitives (pandas-style recursive EWM, Wilder true range / ATR,
rolling sample standard deviation).

Modelling conventions:
* Python floats are modelled as exact rationals.  Python's `round(x, d)`
  (half-to-even on binary floats) is modelled as exact half-up rounding of
  rationals to `d` decimals; the two agree except on exact decimal ties,
  which no statement here exercises.
* A pandas `DataFrame` of OHLCV rows is a `List Bar` in chronological
  order; `iloc[-1]` / `iloc[-2]` become indices `length-1` / `length-2`.
* A `NaN` produced by an insufficient rolling window is modelled as
  `Option.none`; pandas comparisons against NaN yield `False`, matched
  by the explicit `Option` matches below.
* The float `sqrt` used inside the rolling standard deviation is kept as
  an explicit function parameter `sqrtQ : ℚ → ℚ`; all theorems hold for
  every choice of `sqrtQ`, and concrete witnesses instantiate it with the
  integer-Newton rational square root `qSqrt` defined below.
* Functions that `raise` in Python return `Option.none`; `price_structure`,
  which signals failure through a sentinel `{error: ...}` dict instead of
  raising, is modelled as a total function into the sum-like `StructureOut`.
-/

namespace Satyland

/-- One OHLCV bar (`open/high/low/close` row of the DataFrame).  The
`volume` column is never read by any of the five components and is
omitted.  The Python column `open` is spelled `open'` (Lean keyword). -/
structure Bar where
  open' : ℚ
  high : ℚ
  low : ℚ
  close : ℚ
deriving DecidableEq, Repr

/-- `iloc`-style access with the out-of-range default 0 (every access in
the embedding is index-checked by a length hypothesis before use). -/
def getQ (l : List ℚ) (i : ℕ) : ℚ :=
  l.getD i 0

/-- `series.iloc[-1]`. -/
def lastQ (l : List ℚ) : ℚ :=
  getQ l (l.length - 1)

/-- Tail of the pandas `ewm(adjust=False).mean()` recursion:
`y[i] = y[i-1] + alpha*(x[i] - y[i-1])`, carrying the previous value. -/
def ewmFrom (alpha : ℚ) : ℚ → List ℚ → List ℚ
  | _, [] => []
  | prev, x :: xs =>
    let y := prev + alpha * (x - prev)
    y :: ewmFrom alpha y xs

/-- pandas `Series.ewm(alpha, adjust=False).mean()`: seeded at the first
element, then the recursive exponential smoothing. -/
def ewm (alpha : ℚ) : List ℚ → List ℚ
  | [] => []
  | x :: xs => x :: ewmFrom alpha x xs

/-- pandas `Series.ewm(span=s, adjust=False).mean()`: `alpha = 2/(s+1)`. -/
def emaSpan (span : ℕ) (xs : List ℚ) : List ℚ :=
  ewm (2 / ((span : ℚ) + 1)) xs

/-- True ranges after the first bar:
`TR[i] = max(high-low, |high-prev_close|, |low-prev_close|)`,
carrying the previous close. -/
def trFrom (prevClose : ℚ) : List Bar → List ℚ
  | [] => []
  | b :: rest =>
    max (b.high - b.low) (max |b.high - prevClose| |b.low - prevClose|) ::
      trFrom b.close rest

/-- The true-range series of `_wilder_atr`.  At index 0 pandas' row-wise
`max` skips the NaN of `close.shift(1)`, leaving `high - low`. -/
def trueRanges : List Bar → List ℚ
  | [] => []
  | b :: rest => (b.high - b.low) :: trFrom b.close rest

/-- `_wilder_atr`: `tr.ewm(alpha=1/period, adjust=False).mean()`
(the identical helper is defined in `atr_levels.py`, `pivot_ribbon.py`
and `phase_oscillator.py`; all three read only high/low/close). -/
def wilderAtr (period : ℕ) (s : List Bar) : List ℚ :=
  ewm (1 / (period : ℚ)) (trueRanges s)

/-- Python `round(x, d)` on exact rationals (half-up at exact ties; no
statement in this file sits on a tie). -/
def roundTo (d : ℕ) (x : ℚ) : ℚ :=
  ((round (x * (10 : ℚ) ^ d) : ℤ) : ℚ) / (10 : ℚ) ^ d

/-- `round(x, 4)` as used on every price output. -/
def round4 (x : ℚ) : ℚ :=
  roundTo 4 x

/-- `round(x, 1)` as used on `atr_covered_pct`. -/
def round1 (x : ℚ) : ℚ :=
  roundTo 1 x

/-- Integer Newton iteration for the floor square root, with explicit
structural fuel (the iteration is strictly decreasing, so ample fuel
returns the exact floor square root). -/
def newtonSqrt (n : ℕ) : ℕ → ℕ → ℕ
  | 0, g => g
  | fuel + 1, g =>
    let next := (g + n / g) / 2
    if next < g then newtonSqrt n fuel next else g

/-- A concrete computable rational square-root approximation used to
instantiate the `sqrtQ` parameter in witnesses:
`sqrt(num/den) = sqrt(num*den)/den`, with an integer floor square root.
Exact on perfect squares and within one ulp of the integer root. -/
def qSqrt (q : ℚ) : ℚ :=
  let m := q.num.toNat * q.den
  ((newtonSqrt m 2000 (m + 1) : ℕ) : ℚ) / (q.den : ℚ)

/-- pandas `close.rolling(w).std()` (sample standard deviation,
`ddof = 1`): `none` (NaN) until the window is full. -/
def rollingStd (sqrtQ : ℚ → ℚ) (w : ℕ) (xs : List ℚ) : List (Option ℚ) :=
  (List.range xs.length).map fun i =>
    if i + 1 < w then none
    else
      let win := (xs.take (i + 1)).drop (i + 1 - w)
      let m := win.sum / (w : ℚ)
      some (sqrtQ ((win.map fun x => (x - m) ^ 2).sum / ((w : ℚ) - 1)))

/-! ### Basic length and prefix-stability lemmas

The recursive series builders only ever read earlier list elements, so
appending a bar appends exactly one value to each derived series.  These
lemmas carry the anchor-invariance arguments. -/

theorem ewmFrom_length (alpha p : ℚ) (l : List ℚ) :
    (ewmFrom alpha p l).length = l.length := by
  induction l generalizing p with
  | nil => rfl
  | cons x xs ih => simp [ewmFrom, ih]

theorem ewm_length (alpha : ℚ) (l : List ℚ) :
    (ewm alpha l).length = l.length := by
  cases l with
  | nil => rfl
  | cons x xs => simp [ewm, ewmFrom_length]

theorem trFrom_length (pc : ℚ) (l : List Bar) :
    (trFrom pc l).length = l.length := by
  induction l generalizing pc with
  | nil => rfl
  | cons b rest ih => simp [trFrom, ih]

theorem trueRanges_length (l : List Bar) :
    (trueRanges l).length = l.length := by
  cases l with
  | nil => rfl
  | cons b rest => simp [trueRanges, trFrom_length]

theorem wilderAtr_length (period : ℕ) (s : List Bar) :
    (wilderAtr period s).length = s.length := by
  simp [wilderAtr, ewm_length, trueRanges_length]

theorem ewmFrom_append_last (alpha p : ℚ) (l : List ℚ) (x : ℚ) :
    ∃ t, ewmFrom alpha p (l ++ [x]) = ewmFrom alpha p l ++ [t] := by
  induction l generalizing p with
  | nil => exact ⟨_, rfl⟩
  | cons y ys ih =>
    obtain ⟨t, ht⟩ := ih (p + alpha * (y - p))
    exact ⟨t, by simp [ewmFrom, ht]⟩

theorem ewm_append_last (alpha : ℚ) (l : List ℚ) (x : ℚ) (h : l ≠ []) :
    ∃ t, ewm alpha (l ++ [x]) = ewm alpha l ++ [t] := by
  cases l with
  | nil => exact absurd rfl h
  | cons y ys =>
    obtain ⟨t, ht⟩ := ewmFrom_append_last alpha y ys x
    exact ⟨t, by simp [ewm, ht]⟩

theorem trFrom_append_last (pc : ℚ) (l : List Bar) (b : Bar) :
    ∃ t, trFrom pc (l ++ [b]) = trFrom pc l ++ [t] := by
  induction l generalizing pc with
  | nil => exact ⟨_, rfl⟩
  | cons c cs ih =>
    obtain ⟨t, ht⟩ := ih c.close
    exact ⟨t, by simp [trFrom, ht]⟩

theorem trueRanges_append_last (l : List Bar) (b : Bar) (h : l ≠ []) :
    ∃ t, trueRanges (l ++ [b]) = trueRanges l ++ [t] := by
  cases l with
  | nil => exact absurd rfl h
  | cons c cs =>
    obtain ⟨t, ht⟩ := trFrom_append_last c.close cs b
    exact ⟨t, by simp [trueRanges, ht]⟩

theorem getQ_append (l l' : List ℚ) (i : ℕ) (h : i < l.length) :
    getQ (l ++ l') i = getQ l i := by
  induction l generalizing i with
  | nil => simp at h
  | cons x xs ih =>
    cases i with
    | zero => rfl
    | succ j =>
      simp only [List.length_cons, Nat.succ_lt_succ_iff] at h
      simpa [getQ, List.getD] using ih j h

theorem getQ_concat_self (l : List ℚ) (x : ℚ) :
    getQ (l ++ [x]) l.length = x := by
  induction l with
  | nil => rfl
  | cons y ys ih => simp [getQ, List.getD]

/-! ### Rounding lemmas -/

theorem roundTo_mono (d : ℕ) {x y : ℚ} (h : x ≤ y) :
    roundTo d x ≤ roundTo d y := by
  unfold roundTo
  have hp : (0 : ℚ) < (10 : ℚ) ^ d := by positivity
  have hm : x * (10 : ℚ) ^ d ≤ y * (10 : ℚ) ^ d :=
    mul_le_mul_of_nonneg_right h (le_of_lt hp)
  have : (round (x * (10 : ℚ) ^ d) : ℤ) ≤ round (y * (10 : ℚ) ^ d) := by
    rw [round_eq, round_eq]
    exact Int.floor_mono (by linarith)
  exact div_le_div_of_nonneg_right (by exact_mod_cast this) hp.le

theorem roundTo_lt (d : ℕ) {x y : ℚ} (h : x + 1 / (10 : ℚ) ^ d ≤ y) :
    roundTo d x < roundTo d y := by
  unfold roundTo
  have hp : (0 : ℚ) < (10 : ℚ) ^ d := by positivity
  have hx : x * (10 : ℚ) ^ d + 1 ≤ y * (10 : ℚ) ^ d := by
    have := mul_le_mul_of_nonneg_right h (le_of_lt hp)
    have hone : (1 / (10 : ℚ) ^ d) * (10 : ℚ) ^ d = 1 := by
      field_simp
    nlinarith [this]
  have : (round (x * (10 : ℚ) ^ d) : ℤ) < round (y * (10 : ℚ) ^ d) := by
    rw [round_eq, round_eq]
    have h1 : ⌊x * (10 : ℚ) ^ d + 1 / 2⌋ + 1 = ⌊x * (10 : ℚ) ^ d + 1 / 2 + (1 : ℤ)⌋ := by
      rw [Int.floor_add_int]
    have h2 : ⌊x * (10 : ℚ) ^ d + 1 / 2 + (1 : ℤ)⌋ ≤ ⌊y * (10 : ℚ) ^ d + 1 / 2⌋ := by
      apply Int.floor_mono
      push_cast
      linarith
    omega
  have hcast : ((round (x * (10 : ℚ) ^ d) : ℤ) : ℚ) < ((round (y * (10 : ℚ) ^ d) : ℤ) : ℚ) := by
    exact_mod_cast this
  exact div_lt_div_of_pos_right hcast hp

/-! ## ATR Levels (`atr_levels.py`) -/

/-- One entry of the `levels` dict of `atr_levels`: the rounded price and
the raw Fibonacci ratio.  (The cosmetic `pct` display string, e.g.
`"+23.6%"`, is a pure formatting of `fib` and is omitted.) -/
structure LevelEntry where
  price : ℚ
  fib : ℚ
deriving DecidableEq, Repr

/-- `_CORE_FIBS`. -/
def coreFibs : List (ℚ × String) :=
  [(236/1000, "trigger"), (382/1000, "golden_gate"), (1/2, "mid_50"),
   (618/1000, "mid_range"), (786/1000, "fib_786"), (1, "full_range")]

/-- `_EXT_FIBS`. -/
def extFibs : List (ℚ × String) :=
  [(1236/1000, "ext_1236"), (1618/1000, "ext_1618"), (2, "ext_2000"),
   (2236/1000, "ext_2236"), (2618/1000, "ext_2618"), (3, "ext_3000")]

/-- The core-levels loop of `atr_levels`: for each fib,
`{label}_bull ↦ round(pdc + atr*fib, 4)` then `{label}_bear`. -/
def coreLevels (pdc atr : ℚ) : List (String × LevelEntry) :=
  coreFibs.flatMap fun fl =>
    [(fl.2 ++ "_bull", ⟨round4 (pdc + atr * fl.1), fl.1⟩),
     (fl.2 ++ "_bear", ⟨round4 (pdc - atr * fl.1), fl.1⟩)]

/-- The extension-levels loop (`include_extensions=True`): each extension
price is anchored at the rounded ±100% base level. -/
def extLevels (pdc atr : ℚ) : List (String × LevelEntry) :=
  extFibs.flatMap fun fl =>
    [(fl.2 ++ "_bull", ⟨round4 (round4 (pdc + atr) + atr * (fl.1 - 1)), fl.1⟩),
     (fl.2 ++ "_bear", ⟨round4 (round4 (pdc - atr) - atr * (fl.1 - 1)), fl.1⟩)]

/-- The Python anchor index: `iloc[-1]` (= `length-1`) when
`use_current_close`, else `iloc[-2]` (= `length-2`). -/
def anchorIdx (n : ℕ) (use_current_close : Bool) : ℕ :=
  if use_current_close then n - 1 else n - 2

/-- `float(atr_series.iloc[anchor])` of `atr_levels`. -/
def atrAt (daily : List Bar) (atr_period : ℕ) (use_current_close : Bool) : ℚ :=
  getQ (wilderAtr atr_period daily) (anchorIdx daily.length use_current_close)

/-- `float(daily_df["close"].iloc[anchor])` of `atr_levels` (the PDC). -/
def pdcAt (daily : List Bar) (use_current_close : Bool) : ℚ :=
  getQ (daily.map Bar.close) (anchorIdx daily.length use_current_close)

/-- The nine-way price-position ladder of `atr_levels`, walked outside-in
exactly as the Python `if/elif` chain (`>=` on the bull side, `>` on the
bear side). -/
def pricePosition (cp full_high mid_high gate_high call_trigger put_trigger
    gate_low mid_low full_low : ℚ) : String :=
  if full_high ≤ cp then "above_full_range"
  else if mid_high ≤ cp then "above_mid_range"
  else if gate_high ≤ cp then "above_golden_gate"
  else if call_trigger ≤ cp then "above_call_trigger"
  else if put_trigger < cp then "inside_trigger_box"
  else if gate_low < cp then "below_put_trigger"
  else if mid_low < cp then "below_golden_gate"
  else if full_low < cp then "below_mid_range"
  else "below_full_range"

/-- The EMA 8/21/34 trend label of `atr_levels` over its chosen source
series. -/
def trendLabel (src : List Bar) : String :=
  let close := src.map Bar.close
  let e8 := lastQ (emaSpan 8 close)
  let e21 := lastQ (emaSpan 21 close)
  let e34 := lastQ (emaSpan 34 close)
  let cp := lastQ close
  if e8 ≤ cp ∧ e21 ≤ e8 ∧ e34 ≤ e21 then "bullish"
  else if cp ≤ e8 ∧ e8 ≤ e21 ∧ e21 ≤ e34 then "bearish"
  else "neutral"

/-- The result dict of `atr_levels`.  The echo fields `trading_mode`,
`trading_mode_label` and `use_current_close` (pure copies of arguments)
are omitted; `trigger_box` is flattened into its three fields. -/
structure AtrLevelsResult where
  atr : ℚ
  pdc : ℚ
  current_price : ℚ
  levels : List (String × LevelEntry)
  call_trigger : ℚ
  put_trigger : ℚ
  trigger_box_low : ℚ
  trigger_box_high : ℚ
  trigger_box_inside : Bool
  price_position : String
  daily_range : ℚ
  period_range : ℚ
  atr_covered_pct : ℚ
  atr_status : String
  atr_room_ok : Bool
  chopzilla : Bool
  trend : String
deriving DecidableEq, Repr

/-- The successful branch of `atr_levels` (input length ≥ 2). -/
def mkAtrLevels (daily : List Bar) (intraday : Option (List Bar))
    (atr_period : ℕ) (include_extensions use_current_close : Bool) :
    AtrLevelsResult :=
  let n := daily.length
  let atr := atrAt daily atr_period use_current_close
  let pdc := pdcAt daily use_current_close
  let today_high := getQ (daily.map Bar.high) (n - 1)
  let today_low := getQ (daily.map Bar.low) (n - 1)
  let current_price := getQ (daily.map Bar.close) (n - 1)
  let daily_range := today_high - today_low
  let atr_covered_pct := if 0 < atr then round1 (daily_range / atr * 100) else 0
  let atr_status :=
    if atr_covered_pct ≤ 70 then "green"
    else if 90 ≤ atr_covered_pct then "red"
    else "orange"
  let levels :=
    coreLevels pdc atr ++ if include_extensions then extLevels pdc atr else []
  -- named aliases: levels["trigger_bull"/"trigger_bear"].price
  let call_trigger := round4 (pdc + atr * (236/1000))
  let put_trigger := round4 (pdc - atr * (236/1000))
  let inside_trigger_box :=
    decide (put_trigger < current_price ∧ current_price < call_trigger)
  let full_high := round4 (pdc + atr * 1)
  let mid_high := round4 (pdc + atr * (618/1000))
  let gate_high := round4 (pdc + atr * (382/1000))
  let full_low := round4 (pdc - atr * 1)
  let mid_low := round4 (pdc - atr * (618/1000))
  let gate_low := round4 (pdc - atr * (382/1000))
  let trendSrc :=
    match intraday with
    | some idf => if 34 ≤ idf.length then idf else daily
    | none => daily
  { atr := round4 atr
    pdc := round4 pdc
    current_price := round4 current_price
    levels := levels
    call_trigger := call_trigger
    put_trigger := put_trigger
    trigger_box_low := put_trigger
    trigger_box_high := call_trigger
    trigger_box_inside := inside_trigger_box
    price_position :=
      pricePosition current_price full_high mid_high gate_high call_trigger
        put_trigger gate_low mid_low full_low
    daily_range := round4 daily_range
    period_range := round4 daily_range
    atr_covered_pct := atr_covered_pct
    atr_status := atr_status
    atr_room_ok := decide (atr_status = "green")
    chopzilla := inside_trigger_box
    trend := trendLabel trendSrc }

/-- `atr_levels`: raises (`none`) iff the source series has fewer than
2 bars. -/
def atr_levels (daily : List Bar) (intraday : Option (List Bar))
    (atr_period : ℕ) (include_extensions use_current_close : Bool) :
    Option AtrLevelsResult :=
  if daily.length < 2 then none
  else some (mkAtrLevels daily intraday atr_period include_extensions
    use_current_close)

/-! ## The duplicated `_compression_tracker`

`pivot_ribbon.py` and `phase_oscillator.py` each contain their own copy of
`_compression_tracker(close, high, low)`; both copies are transcribed
separately below (the three input Series are the columns of one DataFrame,
carried here as a `List Bar`).  A NaN entry (rolling window not yet full)
is `none`; pandas `NaN <= x` comparisons are `false`, `float(nan) > 0` and
`float(nan) <= 0` are `False`, which the `Option` matches reproduce.  Note
that `tracker[i]` reads only bar-`i` quantities, never `tracker[i-1]`. -/

namespace PivotRibbon

/-- `pivot_ribbon._compression_tracker`. -/
def compressionTracker (sqrtQ : ℚ → ℚ) (df : List Bar) : List Bool :=
  let close := df.map Bar.close
  let pivot := emaSpan 21 close
  let stdev_21 := rollingStd sqrtQ 21 close
  let atr14 := wilderAtr 14 df
  let compression : ℕ → Option ℚ := fun i =>
    (stdev_21.getD i none).map fun sd =>
      if getQ pivot i ≤ getQ close i then
        (getQ pivot i + 2 * sd) - (getQ pivot i + 2 * getQ atr14 i)
      else
        (getQ pivot i - 2 * getQ atr14 i) - (getQ pivot i - 2 * sd)
  let in_expansion : ℕ → Option ℚ := fun i =>
    (stdev_21.getD i none).map fun sd =>
      if getQ pivot i ≤ getQ close i then
        (getQ pivot i + 2 * sd) - (getQ pivot i + (1854/1000) * getQ atr14 i)
      else
        (getQ pivot i - (1854/1000) * getQ atr14 i) - (getQ pivot i - 2 * sd)
  let expansion : ℕ → Bool := fun i =>
    match i with
    | 0 => false
    | j + 1 =>
      match compression j, compression (j + 1) with
      | some a, some b => decide (a ≤ b)
      | _, _ => false
  (List.range df.length).map fun i =>
    if i = 0 then false
    else if expansion i &&
        (match in_expansion i with | some v => decide (0 < v) | none => false) then
      false
    else if (match compression i with | some v => decide (v ≤ 0) | none => false) then
      true
    else false

end PivotRibbon

namespace PhaseOsc

/-- `phase_oscillator._compression_tracker` (the second, independent copy
of the identical Pine compression logic). -/
def compressionTracker (sqrtQ : ℚ → ℚ) (df : List Bar) : List Bool :=
  let close := df.map Bar.close
  let pivot := emaSpan 21 close
  let stdev_21 := rollingStd sqrtQ 21 close
  let atr14 := wilderAtr 14 df
  let compression : ℕ → Option ℚ := fun i =>
    (stdev_21.getD i none).map fun sd =>
      if getQ pivot i ≤ getQ close i then
        (getQ pivot i + 2 * sd) - (getQ pivot i + 2 * getQ atr14 i)
      else
        (getQ pivot i - 2 * getQ atr14 i) - (getQ pivot i - 2 * sd)
  let in_expansion : ℕ → Option ℚ := fun i =>
    (stdev_21.getD i none).map fun sd =>
      if getQ pivot i ≤ getQ close i then
        (getQ pivot i + 2 * sd) - (getQ pivot i + (1854/1000) * getQ atr14 i)
      else
        (getQ pivot i - (1854/1000) * getQ atr14 i) - (getQ pivot i - 2 * sd)
  let expansion : ℕ → Bool := fun i =>
    match i with
    | 0 => false
    | j + 1 =>
      match compression j, compression (j + 1) with
      | some a, some b => decide (a ≤ b)
      | _, _ => false
  (List.range df.length).map fun i =>
    if i = 0 then false
    else if expansion i &&
        (match in_expansion i with | some v => decide (0 < v) | none => false) then
      false
    else if (match compression i with | some v => decide (v ≤ 0) | none => false) then
      true
    else false

end PhaseOsc

/-! ## Pivot Ribbon (`pivot_ribbon.py`) -/

/-- The result dict of `pivot_ribbon`. -/
structure RibbonResult where
  ema8 : ℚ
  ema13 : ℚ
  ema21 : ℚ
  ema48 : ℚ
  ema200 : ℚ
  ribbon_state : String
  bias_candle : String
  bias_signal : String
  conviction_arrow : Option String
  spread : ℚ
  above_48ema : Bool
  above_200ema : Bool
  in_compression : Bool
  chopzilla : Bool
deriving DecidableEq, Repr

/-- `tracker.iloc[-1]`, the only tracker value `pivot_ribbon` surfaces. -/
def PivotRibbon.inCompressionOf (sqrtQ : ℚ → ℚ) (df : List Bar) : Bool :=
  (PivotRibbon.compressionTracker sqrtQ df).getD (df.length - 1) false

/-- The successful branch of `pivot_ribbon` (length ≥ 2).  The Python
guard `len(ema13) >= 2 and len(ema48) >= 2` on the conviction arrow always
holds once the 2-bar check has passed, so the arrow is computed
unconditionally. -/
def mkPivotRibbon (sqrtQ : ℚ → ℚ) (df : List Bar) : RibbonResult :=
    let close := df.map Bar.close
    let n := df.length
    let e8 := lastQ (emaSpan 8 close)
    let e13 := lastQ (emaSpan 13 close)
    let e21 := lastQ (emaSpan 21 close)
    let e48 := lastQ (emaSpan 48 close)
    let e200 := lastQ (emaSpan 200 close)
    let curr_close := lastQ close
    let curr_open := lastQ (df.map Bar.open')
    let ribbon_state :=
      if e21 < e8 ∧ e48 < e21 then "bullish"
      else if e8 < e21 ∧ e21 < e48 then "bearish"
      else "chopzilla"
    let in_compression := PivotRibbon.inCompressionOf sqrtQ df
    let above_48 := decide (e48 ≤ curr_close)
    let candle_up := decide (curr_open ≤ curr_close)
    let bias :=
      if in_compression then ("gray", "compression")
      else if candle_up && above_48 then ("green", "bullish")
      else if !candle_up && above_48 then ("blue", "buy_pullback")
      else if candle_up && !above_48 then ("orange", "short_pullback")
      else ("red", "bearish")
    let prev_13_above :=
      decide (getQ (emaSpan 48 close) (n - 2) ≤ getQ (emaSpan 13 close) (n - 2))
    let curr_13_above := decide (e48 ≤ e13)
    let conviction_arrow :=
      if !prev_13_above && curr_13_above then some "bullish_crossover"
      else if prev_13_above && !curr_13_above then some "bearish_crossover"
      else none
    { ema8 := round4 e8
      ema13 := round4 e13
      ema21 := round4 e21
      ema48 := round4 e48
      ema200 := round4 e200
      ribbon_state := ribbon_state
      bias_candle := bias.1
      bias_signal := bias.2
      conviction_arrow := conviction_arrow
      spread := round4 (e8 - e48)
      above_48ema := above_48
      above_200ema := decide (e200 < curr_close)
      in_compression := in_compression
      chopzilla := decide (ribbon_state = "chopzilla") }

/-- `pivot_ribbon`: raises (`none`) iff fewer than 2 bars. -/
def pivot_ribbon (sqrtQ : ℚ → ℚ) (df : List Bar) : Option RibbonResult :=
  if df.length < 2 then none else some (mkPivotRibbon sqrtQ df)

/-! ## Phase Oscillator (`phase_oscillator.py`) -/

/-- `raw_signal = ((close - EMA21(close)) / (3*ATR14)) * 100` per bar.
ℚ-division by zero yields 0 where float division of a NaN-free numerator
would yield ±inf/NaN; no theorem below equates oscillator values at inputs
with a zero ATR bar. -/
def rawSignal (df : List Bar) : List ℚ :=
  let close := df.map Bar.close
  let pivot := emaSpan 21 close
  let atr14 := wilderAtr 14 df
  (List.range df.length).map fun i =>
    (getQ close i - getQ pivot i) / (3 * getQ atr14 i) * 100

/-- `oscillator = raw_signal.ewm(span=3, adjust=False).mean()`. -/
def oscSeries (df : List Bar) : List ℚ :=
  emaSpan 3 (rawSignal df)

/-- `float(oscillator.iloc[-1])` — the pre-rounding oscillator value the
phase comparison reads. -/
def oscCurrOf (df : List Bar) : ℚ :=
  lastQ (oscSeries df)

/-- `float(oscillator.iloc[-2]) if len(oscillator) > 1 else 0.0`. -/
def oscPrevOf (df : List Bar) : ℚ :=
  if 1 < (oscSeries df).length then getQ (oscSeries df) (df.length - 2) else 0

/-- The result dict of `phase_oscillator` (the constant `zones` reference
table is omitted; `zone_crosses` is flattened into its four fields). -/
structure OscResult where
  oscillator : ℚ
  oscillator_prev : ℚ
  phase : String
  in_compression : Bool
  current_zone : String
  leaving_accumulation : Bool
  leaving_extreme_down : Bool
  leaving_distribution : Bool
  leaving_extreme_up : Bool
deriving DecidableEq, Repr

/-- `bool(tracker.iloc[-1])`, the only tracker value `phase_oscillator`
surfaces. -/
def PhaseOsc.inCompressionOf (sqrtQ : ℚ → ℚ) (df : List Bar) : Bool :=
  (PhaseOsc.compressionTracker sqrtQ df).getD (df.length - 1) false

/-- The successful branch of `phase_oscillator` (length ≥ 22). -/
def mkPhaseOsc (sqrtQ : ℚ → ℚ) (df : List Bar) : OscResult :=
    let osc_curr := oscCurrOf df
    let osc_prev := oscPrevOf df
    let in_compression := PhaseOsc.inCompressionOf sqrtQ df
    let phase :=
      if in_compression then "compression"
      else if 0 ≤ osc_curr then "green"
      else "red"
    let current_zone :=
      if 100 ≤ osc_curr then "extreme_up"
      else if 618/10 ≤ osc_curr then "distribution"
      else if 236/10 ≤ osc_curr then "neutral_up"
      else if 0 ≤ osc_curr then "above_zero"
      else if -(236/10) ≤ osc_curr then "below_zero"
      else if -(618/10) ≤ osc_curr then "neutral_down"
      else if -100 ≤ osc_curr then "accumulation"
      else "extreme_down"
    { oscillator := round4 osc_curr
      oscillator_prev := round4 osc_prev
      phase := phase
      in_compression := in_compression
      current_zone := current_zone
      leaving_accumulation := decide (osc_prev ≤ -(618/10) ∧ -(618/10) < osc_curr)
      leaving_extreme_down := decide (osc_prev ≤ -100 ∧ -100 < osc_curr)
      leaving_distribution := decide (618/10 ≤ osc_prev ∧ osc_curr < 618/10)
      leaving_extreme_up := decide (100 ≤ osc_prev ∧ osc_curr < 100) }

/-- `phase_oscillator`: raises (`none`) iff fewer than 22 bars. -/
def phase_oscillator (sqrtQ : ℚ → ℚ) (df : List Bar) : Option OscResult :=
  if df.length < 22 then none else some (mkPhaseOsc sqrtQ df)

/-! ## Price Structure (`price_structure.py`) -/

/-- `premarket_df["high"].max()` on a non-empty frame. -/
def listMaxQ : List ℚ → ℚ
  | [] => 0
  | x :: xs => xs.foldl max x

/-- `premarket_df["low"].min()` on a non-empty frame. -/
def listMinQ : List ℚ → ℚ
  | [] => 0
  | x :: xs => xs.foldl min x

/-- The successful result dict of `price_structure` (`gaps`/pivots live in
separate functions not involved in any claim). -/
structure StructureResult where
  pdc : ℚ
  pdh : ℚ
  pdl : ℚ
  current_price : ℚ
  pmh : Option ℚ
  pml : Option ℚ
  structural_bias : String
  gap_scenario : String
  price_above_pdh : Bool
  price_above_pmh : Bool
  price_below_pdl : Bool
  price_below_pml : Bool
deriving DecidableEq, Repr

/-- `price_structure` returns either the sentinel `{error: ...}` mapping
or the full result mapping — it never raises. -/
inductive StructureOut where
  | error (msg : String)
  | ok (r : StructureResult)
deriving DecidableEq, Repr

/-- Whether the returned mapping carries the `error` key. -/
def StructureOut.isError : StructureOut → Bool
  | .error _ => true
  | .ok _ => false

/-- The successful branch of `price_structure` (length ≥ 2). -/
def mkPriceStructure (df : List Bar) (premarket_df : Option (List Bar))
    (use_current_close : Bool) : StructureResult :=
    let n := df.length
    let anchor := anchorIdx n use_current_close
    let curr_close := lastQ (df.map Bar.close)
    let pdh := getQ (df.map Bar.high) anchor
    let pdl := getQ (df.map Bar.low) anchor
    let pdc := getQ (df.map Bar.close) anchor
    -- `if premarket_df is not None and not premarket_df.empty:`
    let pm : Option (ℚ × ℚ) :=
      match premarket_df with
      | some pdf =>
        if pdf.isEmpty then none
        else some (listMaxQ (pdf.map Bar.high), listMinQ (pdf.map Bar.low))
      | none => none
    let pmh : Option ℚ := pm.map Prod.fst
    let pml : Option ℚ := pm.map Prod.snd
    let bias :=
      if pdh < curr_close then "strongly_bullish"
      else if (match pmh with
        | some v => decide (v < curr_close)
        | none => false) then "bullish"
      else if (match pml, pmh with
        | some lo, some hi => decide (lo ≤ curr_close ∧ curr_close ≤ hi)
        | _, _ => false) then "neutral"
      else if (match pml with
        | some lo => decide (curr_close < lo)
        | none => false) then "bearish"
      else if curr_close < pdl then "strongly_bearish"
      else "neutral"
    let today_open := lastQ (df.map Bar.open')
    let gap_scenario :=
      if pdh < today_open then "gap_above_pdh"
      else if today_open < pdl then "gap_below_pdl"
      else if pdc < today_open then "gap_up_inside_range"
      else if today_open < pdc then "gap_down_inside_range"
      else "no_gap"
    { pdc := round4 pdc
      pdh := round4 pdh
      pdl := round4 pdl
      current_price := round4 curr_close
      pmh := pmh.map round4
      pml := pml.map round4
      structural_bias := bias
      gap_scenario := gap_scenario
      price_above_pdh := decide (pdh < curr_close)
      price_above_pmh :=
        match pmh with
        | some v => decide (v < curr_close)
        | none => false
      price_below_pdl := decide (curr_close < pdl)
      price_below_pml :=
        match pml with
        | some v => decide (curr_close < v)
        | none => false }

/-- `price_structure`: sentinel error mapping (not an exception) iff fewer
than 2 daily bars; a total function either way. -/
def price_structure (df : List Bar) (premarket_df : Option (List Bar))
    (use_current_close : Bool) : StructureOut :=
  if df.length < 2 then
    .error "Need at least 2 daily bars to compute structure levels"
  else .ok (mkPriceStructure df premarket_df use_current_close)

/-! ## Green Flag Checklist (`green_flag.py`)

The checklist is a pure function of the upstream result dicts.  Keys the
Python code reads with bare indexing (`atr["current_price"]`) are required
fields; keys read through `.get(key, default)` are `Option` fields (a
missing key is `none`). -/

/-- The keys `green_flag_checklist` reads from the `atr_levels` result. -/
structure AtrIn where
  current_price : ℚ
  call_trigger : ℚ
  put_trigger : ℚ
  atr_room_ok : Option Bool
deriving DecidableEq, Repr

/-- The keys read from the `pivot_ribbon` result. -/
structure RibbonIn where
  ribbon_state : String
  ema48 : ℚ
  above_200ema : Option Bool
deriving DecidableEq, Repr

/-- The keys read from the `phase_oscillator` result. -/
structure PhaseIn where
  phase : String
  in_compression : Option Bool
deriving DecidableEq, Repr

/-- The keys read from the `price_structure` result.  `pdh`/`pdl` pass
through `structure.get(k, 0.0) or 0.0`, so a missing key behaves as 0. -/
structure StructIn where
  price_above_pdh : Option Bool
  price_above_pmh : Option Bool
  price_below_pdl : Option Bool
  price_below_pml : Option Bool
  pdh : Option ℚ
  pdl : Option ℚ
deriving DecidableEq, Repr

/-- One value of the optional `mtf_ribbons` mapping (only its
`ribbon_state` key is read, via `.get`). -/
structure MtfEntry where
  ribbon_state : Option String
deriving DecidableEq, Repr

/-- The checklist result dict. -/
structure ChecklistResult where
  direction : String
  score : ℕ
  max_score : ℕ
  grade : String
  recommendation : String
  flags : List (String × Option Bool)
  verbal_audit : String
deriving DecidableEq, Repr

/-- The ten flags, in the Python dict's insertion order.  A flag value of
`none` models the Python `None` stored for `vix_bias` when no VIX level is
supplied. -/
def mkFlags (is_bull : Bool) (atr : AtrIn) (ribbon : RibbonIn)
    (phase : PhaseIn) (structure' : StructIn) (vix : Option ℚ)
    (mtf_ribbons : Option (List MtfEntry)) : List (String × Option Bool) :=
  let curr := atr.current_price
  let ema48 := ribbon.ema48
  let flag1 :=
    ("trend_ribbon_stacked",
      some (decide (ribbon.ribbon_state = if is_bull then "bullish" else "bearish")))
  let flag2 :=
    if is_bull then ("price_above_cloud", some (decide (ema48 < curr)))
    else ("price_below_cloud", some (decide (curr < ema48)))
  let flag3 :=
    ("trigger_hit",
      some (if is_bull then decide (atr.call_trigger ≤ curr)
        else decide (curr ≤ atr.put_trigger)))
  let flag4 :=
    ("structure_confirmed",
      some (if is_bull then
          structure'.price_above_pdh.getD false || structure'.price_above_pmh.getD false
        else
          structure'.price_below_pdl.getD false || structure'.price_below_pml.getD false))
  -- `if mtf_ribbons:` — truthy only for a non-None, non-empty mapping
  let mtf_fallback : Option Bool :=
    some (if is_bull then ribbon.above_200ema.getD false
      else !(ribbon.above_200ema.getD true))
  let flag5 :=
    ("mtf_aligned",
      match mtf_ribbons with
      | some entries =>
        if entries.isEmpty then mtf_fallback
        else
          some (entries.all fun r =>
            r.ribbon_state == some (if is_bull then "bullish" else "bearish"))
      | none => mtf_fallback)
  let flag6 :=
    ("momentum_confirmed",
      some (decide (phase.phase = if is_bull then "green" else "red")))
  let flag7 := ("squeeze", some (phase.in_compression.getD false))
  let flag8 := ("atr_room_ok", some (atr.atr_room_ok.getD true))
  let flag9 :=
    ("vix_bias",
      match vix with
      | some v => some (if is_bull then decide (v < 17) else decide (20 < v))
      | none => none)
  let pdh := structure'.pdh.getD 0
  let pdl := structure'.pdl.getD 0
  let flag10 :=
    ("confluence_bonus",
      some (if is_bull then
          if 0 < pdh then decide (|atr.call_trigger - pdh| / pdh < 5/1000) else false
        else
          if 0 < pdl then decide (|atr.put_trigger - pdl| / pdl < 5/1000) else false))
  [flag1, flag2, flag3, flag4, flag5, flag6, flag7, flag8, flag9, flag10]

/-- `score = sum(1 for v in flags.values() if v is True)`. -/
def scoreOf (flags : List (String × Option Bool)) : ℕ :=
  flags.foldl (fun acc p => if p.2 = some true then acc + 1 else acc) 0

/-- The grade / recommendation ladder of `green_flag_checklist`. -/
def gradeRec (score : ℕ) : String × String :=
  if 5 ≤ score then ("A+", "High-conviction entry. Full size per Rule of 10.")
  else if score = 4 then ("A", "Good setup. Standard size.")
  else if score = 3 then
    ("B", "Marginal. Reduce size or wait for one more confirmation.")
  else ("skip", "Insufficient confirmations. WAIT — do not force the trade.")

/-- The verbal-audit template string.  The source builds `exit_target` as
a single string and immediately splits it on `" then "`; the two halves
are carried directly. -/
def verbalAudit (is_bull : Bool) (direction : String)
    (flags : List (String × Option Bool)) : String :=
  let setup_name :=
    if flags.lookup "trend_ribbon_stacked" = some (some true) then
      "Trend Continuation"
    else "Unknown Setup"
  let trigger_level :=
    if is_bull then "Call Trigger (+23.6%)" else "Put Trigger (-23.6%)"
  let entry_cue :=
    if is_bull then "Blue bias candle bouncing off 21 EMA"
    else "Orange bias candle failing at 21 EMA"
  let exit_near := if is_bull then "Mid-Range (+61.8%)" else "Mid-Range (-61.8%)"
  let exit_far := if is_bull then "Full Range (+100%)" else "Full Range (-100%)"
  let stop_cue :=
    if is_bull then "Candle close below 21 EMA or Ribbon fold"
    else "Candle close above 21 EMA or Ribbon fold"
  "Setup: " ++ setup_name ++ " (" ++ direction ++ "). " ++
  "Trigger: " ++ trigger_level ++ " cleared. " ++
  "Entry: " ++ entry_cue ++ ". " ++
  "Exit: Scale 70% at " ++ exit_near ++ ", runners to " ++ exit_far ++ ". " ++
  "Stop: " ++ stop_cue ++ "."

/-- `green_flag_checklist`: `is_bull = (direction == "bullish")` is
computed once and drives every direction-dependent branch. -/
def green_flag_checklist (atr : AtrIn) (ribbon : RibbonIn) (phase : PhaseIn)
    (structure' : StructIn) (direction : String) (vix : Option ℚ)
    (mtf_ribbons : Option (List MtfEntry)) : ChecklistResult :=
  let is_bull := decide (direction = "bullish")
  let flags := mkFlags is_bull atr ribbon phase structure' vix mtf_ribbons
  let score := scoreOf flags
  { direction := direction
    score := score
    max_score := 10
    grade := (gradeRec score).1
    recommendation := (gradeRec score).2
    flags := flags
    verbal_audit := verbalAudit is_bull direction flags }

/-! ## Concrete series used by witnesses and counterexamples -/

/-- A quiet bar: close 100 with a 0.02 range. -/
def quietBar : Bar :=
  ⟨100, 100 + 1/100, 100 - 1/100, 100⟩

/-- 22 quiet bars: a compressed series for the C7 witness. -/
def flat22 : List Bar :=
  List.replicate 22 quietBar

/-- First 21 bars of the C7 counterexample input: quiet bars around 100
with a single close spike to 200 at index 5 (which inflates the rolling
21-bar standard deviation far above the decayed ATR at the last bar, so
the final bar is not in compression). -/
def c7Pre : List Bar :=
  (List.replicate 5 quietBar) ++ [⟨100, 200 + 1/100, 100 - 1/100, 200⟩] ++
    (List.replicate 15 quietBar)

/-- ATR₁₄ at the last index of the 22-bar counterexample series.  The true
range of the last bar is `max(h-l, |h-prev_close|, |l-prev_close|)`, which
never reads that bar's own close, so a placeholder close of 100 gives the
same value as the solved close below. -/
def c7Atr21 : ℚ :=
  lastQ (wilderAtr 14 (c7Pre ++ [⟨100, 110, 99, 100⟩]))

/-- Sensitivity of the last raw oscillator signal to the last close:
`raw₂₁ = λ·(close₂₁ − EMA21₂₀)` with `λ = (10/11)·100/(3·ATR₂₁)`. -/
def c7Lam : ℚ :=
  (10/11) * 100 / (3 * c7Atr21)

/-- Target oscillator value: −0.00004, strictly negative but rounding to
0.0000 at 4 decimals. -/
def c7T : ℚ :=
  -(1/25000)

/-- The solved last close making the smoothed oscillator land exactly on
`c7T`: `osc₂₁ = (osc₂₀ + raw₂₁)/2 = c7T`. -/
def c7C21 : ℚ :=
  lastQ (emaSpan 21 (c7Pre.map Bar.close)) + (2 * c7T - oscCurrOf c7Pre) / c7Lam

/-- The 22-bar counterexample series for C7: last bar `(100, 110, 99,
c7C21)` with `99 ≤ c7C21 ≤ 110`. -/
def c7Series : List Bar :=
  c7Pre ++ [⟨100, 110, 99, c7C21⟩]

/-! ## Helper lemmas about the embedded components -/

theorem atr_levels_eq_some (daily : List Bar) (intraday : Option (List Bar))
    (p : ℕ) (e u : Bool) (h : 2 ≤ daily.length) :
    atr_levels daily intraday p e u = some (mkAtrLevels daily intraday p e u) := by
  unfold atr_levels
  rw [if_neg (by omega)]

theorem pivot_ribbon_eq_some (sqrtQ : ℚ → ℚ) (df : List Bar)
    (h : 2 ≤ df.length) :
    pivot_ribbon sqrtQ df = some (mkPivotRibbon sqrtQ df) := by
  unfold pivot_ribbon
  rw [if_neg (by omega)]

theorem phase_oscillator_eq_some (sqrtQ : ℚ → ℚ) (df : List Bar)
    (h : 22 ≤ df.length) :
    phase_oscillator sqrtQ df = some (mkPhaseOsc sqrtQ df) := by
  unfold phase_oscillator
  rw [if_neg (by omega)]

theorem price_structure_eq_ok (df : List Bar) (pm : Option (List Bar))
    (u : Bool) (h : 2 ≤ df.length) :
    price_structure df pm u = .ok (mkPriceStructure df pm u) := by
  unfold price_structure
  rw [if_neg (by omega)]

theorem mkAtrLevels_pdc (d : List Bar) (i : Option (List Bar)) (p : ℕ) (e u : Bool) :
    (mkAtrLevels d i p e u).pdc = round4 (pdcAt d u) := rfl

theorem mkAtrLevels_atr (d : List Bar) (i : Option (List Bar)) (p : ℕ) (e u : Bool) :
    (mkAtrLevels d i p e u).atr = round4 (atrAt d p u) := rfl

theorem mkAtrLevels_call_trigger (d : List Bar) (i : Option (List Bar)) (p : ℕ) (e u : Bool) :
    (mkAtrLevels d i p e u).call_trigger =
      round4 (pdcAt d u + atrAt d p u * (236/1000)) := rfl

theorem mkAtrLevels_put_trigger (d : List Bar) (i : Option (List Bar)) (p : ℕ) (e u : Bool) :
    (mkAtrLevels d i p e u).put_trigger =
      round4 (pdcAt d u - atrAt d p u * (236/1000)) := rfl

theorem mkAtrLevels_levels (d : List Bar) (i : Option (List Bar)) (p : ℕ) (e u : Bool) :
    (mkAtrLevels d i p e u).levels =
      coreLevels (pdcAt d u) (atrAt d p u) ++
        (if e then extLevels (pdcAt d u) (atrAt d p u) else []) := rfl

theorem mkAtrLevels_current_price (d : List Bar) (i : Option (List Bar)) (p : ℕ) (e u : Bool) :
    (mkAtrLevels d i p e u).current_price =
      round4 (getQ (d.map Bar.close) (d.length - 1)) := rfl

theorem mkAtrLevels_covered (d : List Bar) (i : Option (List Bar)) (p : ℕ) (e u : Bool) :
    (mkAtrLevels d i p e u).atr_covered_pct =
      if 0 < atrAt d p u then
        round1 ((getQ (d.map Bar.high) (d.length - 1) -
          getQ (d.map Bar.low) (d.length - 1)) / atrAt d p u * 100)
      else 0 := rfl

theorem mkAtrLevels_inside (d : List Bar) (i : Option (List Bar)) (p : ℕ) (e u : Bool) :
    (mkAtrLevels d i p e u).trigger_box_inside =
      decide (round4 (pdcAt d u - atrAt d p u * (236/1000)) <
          getQ (d.map Bar.close) (d.length - 1) ∧
        getQ (d.map Bar.close) (d.length - 1) <
          round4 (pdcAt d u + atrAt d p u * (236/1000))) := rfl

theorem mkAtrLevels_chopzilla (d : List Bar) (i : Option (List Bar)) (p : ℕ) (e u : Bool) :
    (mkAtrLevels d i p e u).chopzilla = (mkAtrLevels d i p e u).trigger_box_inside := rfl

theorem mkAtrLevels_price_position (d : List Bar) (i : Option (List Bar)) (p : ℕ) (e u : Bool) :
    (mkAtrLevels d i p e u).price_position =
      pricePosition (getQ (d.map Bar.close) (d.length - 1))
        (round4 (pdcAt d u + atrAt d p u * 1))
        (round4 (pdcAt d u + atrAt d p u * (618/1000)))
        (round4 (pdcAt d u + atrAt d p u * (382/1000)))
        (round4 (pdcAt d u + atrAt d p u * (236/1000)))
        (round4 (pdcAt d u - atrAt d p u * (236/1000)))
        (round4 (pdcAt d u - atrAt d p u * (382/1000)))
        (round4 (pdcAt d u - atrAt d p u * (618/1000)))
        (round4 (pdcAt d u - atrAt d p u * 1)) := rfl

/-- Appending one bar to a nonempty series does not change the ATR read at
the default anchor `-2` (the Wilder recursion at index `n-2` never reads
bar `n-1`). -/
theorem atrAt_concat (xs : List Bar) (b : Bar) (p : ℕ) (h : 1 ≤ xs.length) :
    atrAt (xs ++ [b]) p false = getQ (wilderAtr p xs) (xs.length - 1) := by
  have hne : xs ≠ [] := by
    intro h0
    rw [h0] at h
    simp at h
  have hTRne : trueRanges xs ≠ [] := by
    intro h0
    have hl := trueRanges_length xs
    rw [h0] at hl
    simp at hl
    omega
  unfold atrAt anchorIdx wilderAtr
  obtain ⟨t, ht⟩ := trueRanges_append_last xs b hne
  rw [ht]
  obtain ⟨w, hw⟩ := ewm_append_last (1 / (p : ℚ)) (trueRanges xs) t hTRne
  rw [hw]
  have hidx : (xs ++ [b]).length - 2 = xs.length - 1 := by
    simp
  rw [if_neg (by simp)]
  rw [hidx]
  exact getQ_append _ _ _ (by rw [ewm_length, trueRanges_length]; omega)

/-- Appending one bar to a nonempty series does not change the PDC read at
the default anchor `-2`. -/
theorem pdcAt_concat (xs : List Bar) (b : Bar) (h : 1 ≤ xs.length) :
    pdcAt (xs ++ [b]) false = getQ (xs.map Bar.close) (xs.length - 1) := by
  unfold pdcAt anchorIdx
  rw [List.map_append, if_neg (by simp)]
  have hidx : (xs ++ [b]).length - 2 = xs.length - 1 := by
    simp
  rw [hidx]
  exact getQ_append _ _ _ (by rw [List.length_map]; omega)

/-- The `iloc[-1]` column reads of a concatenated series see the appended
bar. -/
theorem getQ_map_concat (xs : List Bar) (b : Bar) (f : Bar → ℚ) :
    getQ ((xs ++ [b]).map f) ((xs ++ [b]).length - 1) = f b := by
  rw [List.map_append]
  have : (xs ++ [b]).length - 1 = (xs.map f).length := by simp
  rw [this]
  exact getQ_concat_self _ _

theorem roundTo_zero (d : ℕ) : roundTo d 0 = 0 := by
  simp [roundTo]

theorem roundTo_nonneg (d : ℕ) {x : ℚ} (h : 0 ≤ x) : 0 ≤ roundTo d x := by
  have := roundTo_mono d h
  rwa [roundTo_zero] at this

/-- The Python `sum(1 for v in flags.values() if v is True)` counts
exactly the `True` entries. -/
theorem scoreOf_eq_filter (flags : List (String × Option Bool)) :
    scoreOf flags = (flags.filter fun p => decide (p.2 = some true)).length := by
  suffices h : ∀ (l : List (String × Option Bool)) (n : ℕ),
      l.foldl (fun acc p => if p.2 = some true then acc + 1 else acc) n =
        n + (l.filter fun p => decide (p.2 = some true)).length by
    simpa [scoreOf] using h flags 0
  intro l
  induction l with
  | nil => simp
  | cons x t ih =>
    intro n
    by_cases hx : x.2 = some true
    · simp [List.foldl, List.filter, hx, ih]
      omega
    · simp [List.foldl, List.filter, hx, ih]

/-- Characterisation of the `inside_trigger_box` outcome of the ladder. -/
theorem pricePosition_inside_iff (cp fh mh gh ct pt gl ml fl : ℚ) :
    pricePosition cp fh mh gh ct pt gl ml fl = "inside_trigger_box" ↔
      (¬ fh ≤ cp ∧ ¬ mh ≤ cp ∧ ¬ gh ≤ cp ∧ ¬ ct ≤ cp ∧ pt < cp) := by
  unfold pricePosition
  split_ifs <;> simp_all

theorem round1_cover_mono {A x y : ℚ} (hA : 0 < A) (hxy : x ≤ y) :
    round1 (x / A * 100) ≤ round1 (y / A * 100) :=
  roundTo_mono 1
    (mul_le_mul_of_nonneg_right (div_le_div_of_nonneg_right hxy hA.le) (by norm_num))

theorem round1_cover_strict {A x y : ℚ} (hA : 0 < A) (h : x + A / 1000 ≤ y) :
    round1 (x / A * 100) < round1 (y / A * 100) := by
  apply roundTo_lt 1
  have h1 : ((10 : ℚ)) ^ 1 = 10 := by norm_num
  rw [h1]
  have hlin : x * 100 + (1 / 10) * A ≤ y * 100 := by linarith
  have h2 : x / A * 100 = x * 100 / A := by ring
  have h3 : y / A * 100 = y * 100 / A := by ring
  rw [h2, h3, div_add' _ _ _ (ne_of_gt hA), div_le_div_iff₀ hA hA]
  nlinarith [mul_le_mul_of_nonneg_right hlin hA.le]

theorem mkPhaseOsc_phase (sqrtQ : ℚ → ℚ) (s : List Bar) :
    (mkPhaseOsc sqrtQ s).phase =
      if PhaseOsc.inCompressionOf sqrtQ s then "compression"
      else if 0 ≤ oscCurrOf s then "green"
      else "red" := rfl

theorem mkPhaseOsc_in_compression (sqrtQ : ℚ → ℚ) (s : List Bar) :
    (mkPhaseOsc sqrtQ s).in_compression = PhaseOsc.inCompressionOf sqrtQ s := rfl

theorem mkPhaseOsc_oscillator (sqrtQ : ℚ → ℚ) (s : List Bar) :
    (mkPhaseOsc sqrtQ s).oscillator = round4 (oscCurrOf s) := rfl

/-- A price sitting exactly on the call trigger lands in the
`above_call_trigger` branch when the rounded levels above it are strictly
separated. -/
theorem pricePosition_at_call (fh mh gh ct pt gl ml fl : ℚ)
    (h1 : ct < gh) (h2 : gh ≤ mh) (h3 : mh ≤ fh) :
    pricePosition ct fh mh gh ct pt gl ml fl = "above_call_trigger" := by
  unfold pricePosition
  rw [if_neg (by linarith), if_neg (by linarith), if_neg (by linarith),
    if_pos le_rfl]

/-- A price sitting exactly on the put trigger lands in the
`below_put_trigger` branch (the bear-side comparisons are strict) when the
rounded levels around it are strictly separated. -/
theorem pricePosition_at_put (fh mh gh ct pt gl ml fl : ℚ)
    (hpc : pt < ct) (h1 : ct ≤ gh) (h2 : gh ≤ mh) (h3 : mh ≤ fh)
    (hgl : gl < pt) :
    pricePosition pt fh mh gh ct pt gl ml fl = "below_put_trigger" := by
  unfold pricePosition
  rw [if_neg (by linarith), if_neg (by linarith), if_neg (by linarith),
    if_neg (by linarith), if_neg (lt_irrefl pt), if_pos hgl]

theorem gfc_flags (a : AtrIn) (r : RibbonIn) (p : PhaseIn) (s : StructIn)
    (d : String) (v : Option ℚ) (m : Option (List MtfEntry)) :
    (green_flag_checklist a r p s d v m).flags =
      mkFlags (decide (d = "bullish")) a r p s v m := rfl

theorem gfc_score (a : AtrIn) (r : RibbonIn) (p : PhaseIn) (s : StructIn)
    (d : String) (v : Option ℚ) (m : Option (List MtfEntry)) :
    (green_flag_checklist a r p s d v m).score =
      scoreOf (mkFlags (decide (d = "bullish")) a r p s v m) := rfl

theorem gfc_grade (a : AtrIn) (r : RibbonIn) (p : PhaseIn) (s : StructIn)
    (d : String) (v : Option ℚ) (m : Option (List MtfEntry)) :
    (green_flag_checklist a r p s d v m).grade =
      (gradeRec (scoreOf (mkFlags (decide (d = "bullish")) a r p s v m))).1 := rfl

theorem gfc_recommendation (a : AtrIn) (r : RibbonIn) (p : PhaseIn) (s : StructIn)
    (d : String) (v : Option ℚ) (m : Option (List MtfEntry)) :
    (green_flag_checklist a r p s d v m).recommendation =
      (gradeRec (scoreOf (mkFlags (decide (d = "bullish")) a r p s v m))).2 := rfl

/-! ## The claims -/

/-- Claim C1: anchor invariance of `atr_levels`.  For every series of at
least 2 bars with `use_current_close=false`, two calls whose inputs differ
only in the last (forming) bar return the same `pdc`, the same `atr`, the
same price for every Fibonacci level (core and extension), and the same
trigger aliases: ATR and PDC are both anchored at index `-2`, and the
Wilder recursion at index `-2` never reads the last bar. -/
theorem C1_anchor_invariance (xs : List Bar) (b b' : Bar)
    (intraday : Option (List Bar)) (period : ℕ) (ext : Bool)
    (h : 1 ≤ xs.length) :
    ∃ r r', atr_levels (xs ++ [b]) intraday period ext false = some r ∧
      atr_levels (xs ++ [b']) intraday period ext false = some r' ∧
      r.pdc = r'.pdc ∧ r.atr = r'.atr ∧ r.levels = r'.levels ∧
      r.call_trigger = r'.call_trigger ∧ r.put_trigger = r'.put_trigger := by
  have h2 : 2 ≤ (xs ++ [b]).length := by simp; omega
  have h2' : 2 ≤ (xs ++ [b']).length := by simp; omega
  refine ⟨_, _, atr_levels_eq_some _ _ _ _ _ h2,
    atr_levels_eq_some _ _ _ _ _ h2', ?_, ?_, ?_, ?_, ?_⟩ <;>
    simp only [mkAtrLevels_pdc, mkAtrLevels_atr, mkAtrLevels_levels,
      mkAtrLevels_call_trigger, mkAtrLevels_put_trigger,
      atrAt_concat xs b period h, atrAt_concat xs b' period h,
      pdcAt_concat xs b h, pdcAt_concat xs b' h]

/-- Witness for C1 at a concrete 2-bar pair differing only in the last
bar. -/
theorem C1_witness :
    (1 ≤ ([⟨100, 101, 99, 100⟩] : List Bar).length) ∧
    ∃ r r',
      atr_levels ([(⟨100, 101, 99, 100⟩ : Bar)] ++ [⟨100, 102, 98, 101⟩])
        none 14 false false = some r ∧
      atr_levels ([(⟨100, 101, 99, 100⟩ : Bar)] ++ [⟨100, 103, 97, 99⟩])
        none 14 false false = some r' ∧
      r.pdc = r'.pdc ∧ r.atr = r'.atr ∧ r.levels = r'.levels ∧
      r.call_trigger = r'.call_trigger ∧ r.put_trigger = r'.put_trigger :=
  ⟨by decide,
    C1_anchor_invariance [⟨100, 101, 99, 100⟩] ⟨100, 102, 98, 101⟩
      ⟨100, 103, 97, 99⟩ none 14 false (by decide)⟩

/-- Claim C5, amended: whenever the anchored ATR is strictly positive the
rounded triggers satisfy `put_trigger ≤ pdc ≤ call_trigger`, and the
inequalities are strict as soon as `ATR × 0.236` reaches `0.0001` (one
unit of the 4-decimal output rounding).  The strict version claimed for
every positive ATR fails: for a tiny ATR both triggers round onto `pdc`
(see `C5_counterexample`). -/
theorem C5_trigger_ordering (daily : List Bar) (intraday : Option (List Bar))
    (period : ℕ) (ext ucc : Bool) (h2 : 2 ≤ daily.length)
    (hA : 0 < atrAt daily period ucc) :
    ∃ r, atr_levels daily intraday period ext ucc = some r ∧
      r.put_trigger ≤ r.pdc ∧ r.pdc ≤ r.call_trigger ∧
      (1/10000 ≤ atrAt daily period ucc * (236/1000) →
        r.put_trigger < r.pdc ∧ r.pdc < r.call_trigger) := by
  refine ⟨_, atr_levels_eq_some _ _ _ _ _ h2, ?_, ?_, ?_⟩
  · rw [mkAtrLevels_put_trigger, mkAtrLevels_pdc]
    exact roundTo_mono 4 (by nlinarith)
  · rw [mkAtrLevels_pdc, mkAtrLevels_call_trigger]
    exact roundTo_mono 4 (by nlinarith)
  · intro hg
    have h4 : ((10 : ℚ)) ^ 4 = 10000 := by norm_num
    constructor
    · rw [mkAtrLevels_put_trigger, mkAtrLevels_pdc]
      apply roundTo_lt 4
      rw [h4]
      linarith
    · rw [mkAtrLevels_pdc, mkAtrLevels_call_trigger]
      apply roundTo_lt 4
      rw [h4]
      linarith

/-- Counterexample to C5 as stated: a series whose anchored ATR is
`0.0001 > 0`, yet `call_trigger = pdc` after the 4-decimal rounding, so
`call_trigger > pdc` fails. -/
theorem C5_counterexample :
    ∃ r, atr_levels [⟨100, 100 + 1/10000, 100, 100⟩, ⟨100, 100, 100, 100⟩]
        none 14 false false = some r ∧
      0 < r.atr ∧ ¬ r.pdc < r.call_trigger := by
  refine ⟨_, atr_levels_eq_some _ _ _ _ _ (by decide), ?_, ?_⟩
  · with_unfolding_all decide
  · with_unfolding_all decide

/-- Witness for the amended C5 at a concrete series with ATR = 4. -/
theorem C5_witness :
    (2 ≤ ([⟨100, 102, 98, 100⟩, ⟨100, 101, 99, 100⟩] : List Bar).length) ∧
    (0 < atrAt [⟨100, 102, 98, 100⟩, ⟨100, 101, 99, 100⟩] 14 false) ∧
    ∃ r, atr_levels [⟨100, 102, 98, 100⟩, ⟨100, 101, 99, 100⟩]
        none 14 false false = some r ∧
      r.put_trigger ≤ r.pdc ∧ r.pdc ≤ r.call_trigger ∧
      (1/10000 ≤ atrAt [⟨100, 102, 98, 100⟩, ⟨100, 101, 99, 100⟩] 14 false * (236/1000) →
        r.put_trigger < r.pdc ∧ r.pdc < r.call_trigger) :=
  ⟨by decide, by with_unfolding_all decide,
    C5_trigger_ordering [⟨100, 102, 98, 100⟩, ⟨100, 101, 99, 100⟩] none 14
      false false (by decide) (by with_unfolding_all decide)⟩

/-- Claim C6, amended: with `use_current_close=false` and a strictly
positive anchored ATR, widening the last bar's high−low range weakly
increases `atr_covered_pct`, and strictly increases it as soon as the
widening reaches `ATR/1000` (one unit of the 1-decimal rounding of the
percentage).  The unconditional strict increase claimed fails when the
ATR is zero (the field is the guard value `0.0` on both sides, see
`C6_counterexample`) and for widenings below the rounding granularity. -/
theorem C6_atr_coverage (xs : List Bar) (b b' : Bar)
    (intraday : Option (List Bar)) (period : ℕ) (ext : Bool)
    (h : 1 ≤ xs.length) :
    ∃ r r', atr_levels (xs ++ [b]) intraday period ext false = some r ∧
      atr_levels (xs ++ [b']) intraday period ext false = some r' ∧
      (0 < atrAt (xs ++ [b]) period false →
        (b.high - b.low ≤ b'.high - b'.low →
          r.atr_covered_pct ≤ r'.atr_covered_pct) ∧
        (b.high - b.low + atrAt (xs ++ [b]) period false / 1000 ≤
            b'.high - b'.low →
          r.atr_covered_pct < r'.atr_covered_pct)) := by
  have h2 : 2 ≤ (xs ++ [b]).length := by simp; omega
  have h2' : 2 ≤ (xs ++ [b']).length := by simp; omega
  refine ⟨_, _, atr_levels_eq_some _ _ _ _ _ h2,
    atr_levels_eq_some _ _ _ _ _ h2', ?_⟩
  intro hA
  have hAeq : atrAt (xs ++ [b']) period false = atrAt (xs ++ [b]) period false := by
    rw [atrAt_concat xs b' period h, atrAt_concat xs b period h]
  rw [mkAtrLevels_covered, mkAtrLevels_covered, hAeq,
    getQ_map_concat, getQ_map_concat, getQ_map_concat, getQ_map_concat,
    if_pos hA, if_pos hA]
  exact ⟨fun hle => round1_cover_mono hA hle,
    fun hstrict => round1_cover_strict hA hstrict⟩

/-- Counterexample to C6 as stated: with a flat first bar the anchored ATR
is 0, and `atr_covered_pct` is the guard value `0.0` both before and after
widening the last bar's range from 0 to 2 — not a strict increase. -/
theorem C6_counterexample :
    ∃ r r',
      atr_levels [⟨100, 100, 100, 100⟩, ⟨100, 100, 100, 100⟩]
        none 14 false false = some r ∧
      atr_levels [⟨100, 100, 100, 100⟩, ⟨100, 101, 99, 100⟩]
        none 14 false false = some r' ∧
      ((100 : ℚ) - 100 < 101 - 99) ∧
      ¬ r.atr_covered_pct < r'.atr_covered_pct := by
  refine ⟨_, _, atr_levels_eq_some _ _ _ _ _ (by decide),
    atr_levels_eq_some _ _ _ _ _ (by decide), by norm_num, ?_⟩
  with_unfolding_all decide

/-- Witness for the amended C6 at a concrete pair (ATR = 4, ranges 2 and
6). -/
theorem C6_witness :
    (1 ≤ ([⟨100, 102, 98, 100⟩] : List Bar).length) ∧
    ∃ r r',
      atr_levels ([(⟨100, 102, 98, 100⟩ : Bar)] ++ [⟨100, 101, 99, 100⟩])
        none 14 false false = some r ∧
      atr_levels ([(⟨100, 102, 98, 100⟩ : Bar)] ++ [⟨100, 103, 97, 100⟩])
        none 14 false false = some r' ∧
      (0 < atrAt ([(⟨100, 102, 98, 100⟩ : Bar)] ++ [⟨100, 101, 99, 100⟩]) 14 false →
        ((101 : ℚ) - 99 ≤ 103 - 97 →
          r.atr_covered_pct ≤ r'.atr_covered_pct) ∧
        ((101 : ℚ) - 99 +
            atrAt ([(⟨100, 102, 98, 100⟩ : Bar)] ++ [⟨100, 101, 99, 100⟩]) 14 false / 1000 ≤
            103 - 97 →
          r.atr_covered_pct < r'.atr_covered_pct)) :=
  ⟨by decide,
    C6_atr_coverage [⟨100, 102, 98, 100⟩] ⟨100, 101, 99, 100⟩
      ⟨100, 103, 97, 100⟩ none 14 false (by decide)⟩

/-- Claim C2: the two independently implemented `_compression_tracker`
functions are extensionally equal on every input, and consequently the
`in_compression` booleans returned by `pivot_ribbon` and
`phase_oscillator` agree on every series accepted by both (≥ 22 bars). -/
theorem C2_compression_equiv (sqrtQ : ℚ → ℚ) :
    (∀ df : List Bar,
      PivotRibbon.compressionTracker sqrtQ df =
        PhaseOsc.compressionTracker sqrtQ df) ∧
    ∀ s : List Bar, 22 ≤ s.length →
      ∃ r o, pivot_ribbon sqrtQ s = some r ∧ phase_oscillator sqrtQ s = some o ∧
        r.in_compression = o.in_compression :=
  ⟨fun _ => rfl,
    fun s h =>
      ⟨_, _, pivot_ribbon_eq_some sqrtQ s (by omega),
        phase_oscillator_eq_some sqrtQ s h, rfl⟩⟩

/-- Witness for C2 at a concrete 22-bar series. -/
theorem C2_witness :
    (22 ≤ (List.replicate 22 (⟨50, 51, 49, 50⟩ : Bar)).length) ∧
    ∃ r o,
      pivot_ribbon qSqrt (List.replicate 22 (⟨50, 51, 49, 50⟩ : Bar)) = some r ∧
      phase_oscillator qSqrt (List.replicate 22 (⟨50, 51, 49, 50⟩ : Bar)) = some o ∧
      r.in_compression = o.in_compression :=
  ⟨by decide, (C2_compression_equiv qSqrt).2 _ (by decide)⟩

/-- Claim C3: `atr_levels` raises iff its source has fewer than 2 bars,
`pivot_ribbon` iff fewer than 2, `phase_oscillator` iff fewer than 22,
while `price_structure` is total and returns the sentinel error mapping
exactly when its daily series has fewer than 2 bars.  (The hypothesis
`0 < period` keeps the ATR period inside the modelled domain: in Python a
zero period would raise a `ZeroDivisionError` — a different error — on
series of length ≥ 2.) -/
theorem C3_error_signalling (sqrtQ : ℚ → ℚ) (d1 : List Bar)
    (intraday : Option (List Bar)) (period : ℕ) (ext ucc : Bool)
    (s2 s3 d4 : List Bar) (pm : Option (List Bar)) (ucc4 : Bool)
    (_hp : 0 < period) :
    (atr_levels d1 intraday period ext ucc = none ↔ d1.length < 2) ∧
    (pivot_ribbon sqrtQ s2 = none ↔ s2.length < 2) ∧
    (phase_oscillator sqrtQ s3 = none ↔ s3.length < 22) ∧
    ((price_structure d4 pm ucc4).isError = true ↔ d4.length < 2) := by
  refine ⟨?_, ?_, ?_, ?_⟩
  · unfold atr_levels
    split_ifs with hc <;> simp [hc]
  · unfold pivot_ribbon
    split_ifs with hc <;> simp [hc]
  · unfold phase_oscillator
    split_ifs with hc <;> simp [hc]
  · unfold price_structure
    split_ifs with hc <;> simp [hc, StructureOut.isError]

/-- Witness for C3 at concrete inputs on both sides of each threshold. -/
theorem C3_witness :
    (0 < 14) ∧
    ((atr_levels [] none 14 false false = none ↔ ([] : List Bar).length < 2) ∧
     (pivot_ribbon qSqrt [⟨1, 1, 1, 1⟩, ⟨1, 1, 1, 1⟩] = none ↔
       ([⟨1, 1, 1, 1⟩, ⟨1, 1, 1, 1⟩] : List Bar).length < 2) ∧
     (phase_oscillator qSqrt [] = none ↔ ([] : List Bar).length < 22) ∧
     ((price_structure [] none false).isError = true ↔
       ([] : List Bar).length < 2)) :=
  ⟨by decide,
    C3_error_signalling qSqrt [] none 14 false false
      [⟨1, 1, 1, 1⟩, ⟨1, 1, 1, 1⟩] [] [] none false (by decide)⟩

/-- Claim C7, amended: the returned phase is `"compression"` exactly when
`in_compression` holds; when it does not, the phase is `"green"` iff the
pre-rounding oscillator value is ≥ 0 and `"red"` iff it is negative, and
`"green"` still implies that the returned (rounded) oscillator is ≥ 0.
The biconditional claimed against the *returned* oscillator fails: a tiny
negative oscillator yields phase `"red"` yet rounds to a returned value
of `0.0` (see `C7_counterexample`). -/
theorem C7_phase_sign (sqrtQ : ℚ → ℚ) (s : List Bar) (h : 22 ≤ s.length) :
    ∃ r, phase_oscillator sqrtQ s = some r ∧
      (r.phase = "compression" ↔ r.in_compression = true) ∧
      (r.in_compression = false →
        (r.phase = "green" ↔ 0 ≤ oscCurrOf s) ∧
        (r.phase = "red" ↔ oscCurrOf s < 0) ∧
        (r.phase = "green" → 0 ≤ r.oscillator)) := by
  refine ⟨_, phase_oscillator_eq_some sqrtQ s h, ?_, ?_⟩
  · rw [mkPhaseOsc_phase, mkPhaseOsc_in_compression]
    cases hin : PhaseOsc.inCompressionOf sqrtQ s
    · split_ifs <;> simp_all
    · simp
  · intro hfalse
    rw [mkPhaseOsc_in_compression] at hfalse
    rw [mkPhaseOsc_phase, mkPhaseOsc_oscillator, hfalse]
    rw [if_neg (by decide)]
    by_cases h0 : 0 ≤ oscCurrOf s
    · rw [if_pos h0]
      refine ⟨by simp [h0], by simp [not_lt.mpr h0], fun _ => roundTo_nonneg 4 h0⟩
    · rw [if_neg h0]
      refine ⟨by simp [h0], by simp [not_le.mp h0], by simp⟩

set_option maxRecDepth 200000 in
/-- Counterexample to C7 as stated: on `c7Series` the last bar is not in
compression, the pre-rounding oscillator is −0.00004, so the phase is
`"red"`, while the returned oscillator value rounds to `0.0 ≥ 0` — the
claimed biconditional `phase = "green" ↔ returned oscillator ≥ 0` is
false. -/
theorem C7_counterexample :
    ∃ r, phase_oscillator qSqrt c7Series = some r ∧
      r.in_compression = false ∧ r.phase = "red" ∧
      ¬ (r.phase = "green" ↔ 0 ≤ r.oscillator) := by
  refine ⟨_, phase_oscillator_eq_some qSqrt c7Series (by decide), ?_, ?_, ?_⟩
  · with_unfolding_all decide
  · with_unfolding_all decide
  · with_unfolding_all decide

/-- Witness for the amended C7 at a concrete quiet 22-bar series (which is
in compression). -/
theorem C7_witness :
    (22 ≤ flat22.length) ∧
    ∃ r, phase_oscillator qSqrt flat22 = some r ∧
      (r.phase = "compression" ↔ r.in_compression = true) ∧
      (r.in_compression = false →
        (r.phase = "green" ↔ 0 ≤ oscCurrOf flat22) ∧
        (r.phase = "red" ↔ oscCurrOf flat22 < 0) ∧
        (r.phase = "green" → 0 ≤ r.oscillator)) :=
  ⟨by decide, C7_phase_sign qSqrt flat22 (by decide)⟩

/-- Claim C4: for every direction, upstream inputs, and optional VIX /
multi-timeframe arguments, the returned score equals the number of flags
in the returned flags mapping whose value is exactly `true`; `none`
(null) flags are neither counted nor treated as `false`. -/
theorem C4_score_definition (atr : AtrIn) (ribbon : RibbonIn) (phase : PhaseIn)
    (structure' : StructIn) (direction : String) (vix : Option ℚ)
    (mtf_ribbons : Option (List MtfEntry)) :
    (green_flag_checklist atr ribbon phase structure' direction vix
        mtf_ribbons).score =
      ((green_flag_checklist atr ribbon phase structure' direction vix
          mtf_ribbons).flags.filter fun p => decide (p.2 = some true)).length :=
  scoreOf_eq_filter
    (mkFlags (decide (direction = "bullish")) atr ribbon phase structure' vix
      mtf_ribbons)

/-- Claim C8, amended: for every direction other than `"bullish"` the
checklist takes the bearish branch — flags, score, max_score, grade and
recommendation all coincide with the `direction="bearish"` call, and the
`direction` field echoes the given string.  The `verbal_audit` string,
however, embeds the direction verbatim, so the full results are *not*
equal up to the direction field alone (see `C8_counterexample`). -/
theorem C8_direction_fallback (atr : AtrIn) (ribbon : RibbonIn)
    (phase : PhaseIn) (structure' : StructIn) (vix : Option ℚ)
    (mtf_ribbons : Option (List MtfEntry)) (d : String) (h : d ≠ "bullish") :
    (green_flag_checklist atr ribbon phase structure' d vix mtf_ribbons).flags =
      (green_flag_checklist atr ribbon phase structure' "bearish" vix
        mtf_ribbons).flags ∧
    (green_flag_checklist atr ribbon phase structure' d vix mtf_ribbons).score =
      (green_flag_checklist atr ribbon phase structure' "bearish" vix
        mtf_ribbons).score ∧
    (green_flag_checklist atr ribbon phase structure' d vix
        mtf_ribbons).max_score =
      (green_flag_checklist atr ribbon phase structure' "bearish" vix
        mtf_ribbons).max_score ∧
    (green_flag_checklist atr ribbon phase structure' d vix mtf_ribbons).grade =
      (green_flag_checklist atr ribbon phase structure' "bearish" vix
        mtf_ribbons).grade ∧
    (green_flag_checklist atr ribbon phase structure' d vix
        mtf_ribbons).recommendation =
      (green_flag_checklist atr ribbon phase structure' "bearish" vix
        mtf_ribbons).recommendation ∧
    (green_flag_checklist atr ribbon phase structure' d vix
        mtf_ribbons).direction = d := by
  have hd : decide (d = "bullish") = false := decide_eq_false h
  have hb : decide (("bearish" : String) = "bullish") = false := by decide
  refine ⟨?_, ?_, rfl, ?_, ?_, rfl⟩
  · rw [gfc_flags, gfc_flags, hd, hb]
  · rw [gfc_score, gfc_score, hd, hb]
  · rw [gfc_grade, gfc_grade, hd, hb]
  · rw [gfc_recommendation, gfc_recommendation, hd, hb]

/-- Counterexample to C8 as stated: with `direction="x"`, the result is
not the `direction="bearish"` result with only the direction field
replaced — the verbal-audit string still embeds `(bearish)` on one side
and `(x)` on the other. -/
theorem C8_counterexample :
    ¬ (green_flag_checklist ⟨100, 101, 99, some true⟩ ⟨"bearish", 95, some true⟩
        ⟨"red", some false⟩
        ⟨some false, some false, some true, some false, some 100, some 99⟩
        "x" (some 25) none =
      { green_flag_checklist ⟨100, 101, 99, some true⟩ ⟨"bearish", 95, some true⟩
          ⟨"red", some false⟩
          ⟨some false, some false, some true, some false, some 100, some 99⟩
          "bearish" (some 25) none with direction := "x" }) := by
  with_unfolding_all decide

/-- Witness for the amended C8 at `direction="neutral"` with concrete
inputs. -/
theorem C8_witness :
    (("neutral" : String) ≠ "bullish") ∧
    ((green_flag_checklist ⟨100, 101, 99, some true⟩ ⟨"bearish", 95, some true⟩
        ⟨"red", some false⟩
        ⟨some false, some false, some true, some false, some 100, some 99⟩
        "neutral" (some 25) none).flags =
      (green_flag_checklist ⟨100, 101, 99, some true⟩ ⟨"bearish", 95, some true⟩
        ⟨"red", some false⟩
        ⟨some false, some false, some true, some false, some 100, some 99⟩
        "bearish" (some 25) none).flags ∧
     (green_flag_checklist ⟨100, 101, 99, some true⟩ ⟨"bearish", 95, some true⟩
        ⟨"red", some false⟩
        ⟨some false, some false, some true, some false, some 100, some 99⟩
        "neutral" (some 25) none).score =
      (green_flag_checklist ⟨100, 101, 99, some true⟩ ⟨"bearish", 95, some true⟩
        ⟨"red", some false⟩
        ⟨some false, some false, some true, some false, some 100, some 99⟩
        "bearish" (some 25) none).score ∧
     (green_flag_checklist ⟨100, 101, 99, some true⟩ ⟨"bearish", 95, some true⟩
        ⟨"red", some false⟩
        ⟨some false, some false, some true, some false, some 100, some 99⟩
        "neutral" (some 25) none).max_score =
      (green_flag_checklist ⟨100, 101, 99, some true⟩ ⟨"bearish", 95, some true⟩
        ⟨"red", some false⟩
        ⟨some false, some false, some true, some false, some 100, some 99⟩
        "bearish" (some 25) none).max_score ∧
     (green_flag_checklist ⟨100, 101, 99, some true⟩ ⟨"bearish", 95, some true⟩
        ⟨"red", some false⟩
        ⟨some false, some false, some true, some false, some 100, some 99⟩
        "neutral" (some 25) none).grade =
      (green_flag_checklist ⟨100, 101, 99, some true⟩ ⟨"bearish", 95, some true⟩
        ⟨"red", some false⟩
        ⟨some false, some false, some true, some false, some 100, some 99⟩
        "bearish" (some 25) none).grade ∧
     (green_flag_checklist ⟨100, 101, 99, some true⟩ ⟨"bearish", 95, some true⟩
        ⟨"red", some false⟩
        ⟨some false, some false, some true, some false, some 100, some 99⟩
        "neutral" (some 25) none).recommendation =
      (green_flag_checklist ⟨100, 101, 99, some true⟩ ⟨"bearish", 95, some true⟩
        ⟨"red", some false⟩
        ⟨some false, some false, some true, some false, some 100, some 99⟩
        "bearish" (some 25) none).recommendation ∧
     (green_flag_checklist ⟨100, 101, 99, some true⟩ ⟨"bearish", 95, some true⟩
        ⟨"red", some false⟩
        ⟨some false, some false, some true, some false, some 100, some 99⟩
        "neutral" (some 25) none).direction = "neutral") :=
  ⟨by decide,
    C8_direction_fallback ⟨100, 101, 99, some true⟩ ⟨"bearish", 95, some true⟩
      ⟨"red", some false⟩
      ⟨some false, some false, some true, some false, some 100, some 99⟩
      (some 25) none "neutral" (by decide)⟩

/-- Claim C9: with at least 2 daily bars and no (or an empty) premarket
series, `price_structure` succeeds with a structural bias drawn from
`{strongly_bullish, neutral, strongly_bearish}` (the `bullish`/`bearish`
labels are unreachable), and `price_above_pmh` / `price_below_pml` are the
boolean `false`. -/
theorem C9_bias_vocabulary (df : List Bar) (pm : Option (List Bar)) (ucc : Bool)
    (hpm : pm = none ∨ pm = some []) (h2 : 2 ≤ df.length) :
    ∃ r, price_structure df pm ucc = .ok r ∧
      (r.structural_bias = "strongly_bullish" ∨ r.structural_bias = "neutral" ∨
        r.structural_bias = "strongly_bearish") ∧
      r.price_above_pmh = false ∧ r.price_below_pml = false := by
  rcases hpm with rfl | rfl
  · refine ⟨_, price_structure_eq_ok _ _ _ h2, ?_, rfl, rfl⟩
    have hb : (mkPriceStructure df none ucc).structural_bias =
        (if getQ (df.map Bar.high) (anchorIdx df.length ucc) <
            lastQ (df.map Bar.close) then "strongly_bullish"
         else if lastQ (df.map Bar.close) <
            getQ (df.map Bar.low) (anchorIdx df.length ucc) then "strongly_bearish"
         else "neutral") := rfl
    rw [hb]
    split_ifs <;> simp
  · refine ⟨_, price_structure_eq_ok _ _ _ h2, ?_, rfl, rfl⟩
    have hb : (mkPriceStructure df (some []) ucc).structural_bias =
        (if getQ (df.map Bar.high) (anchorIdx df.length ucc) <
            lastQ (df.map Bar.close) then "strongly_bullish"
         else if lastQ (df.map Bar.close) <
            getQ (df.map Bar.low) (anchorIdx df.length ucc) then "strongly_bearish"
         else "neutral") := rfl
    rw [hb]
    split_ifs <;> simp

/-- Witness for C9 at a concrete 2-bar daily series with no premarket
data. -/
theorem C9_witness :
    ((none : Option (List Bar)) = none ∨ (none : Option (List Bar)) = some []) ∧
    (2 ≤ ([⟨100, 101, 99, 100⟩, ⟨100, 102, 98, 101⟩] : List Bar).length) ∧
    ∃ r, price_structure [⟨100, 101, 99, 100⟩, ⟨100, 102, 98, 101⟩] none false =
        .ok r ∧
      (r.structural_bias = "strongly_bullish" ∨ r.structural_bias = "neutral" ∨
        r.structural_bias = "strongly_bearish") ∧
      r.price_above_pmh = false ∧ r.price_below_pml = false :=
  ⟨Or.inl rfl, by decide,
    C9_bias_vocabulary [⟨100, 101, 99, 100⟩, ⟨100, 102, 98, 101⟩] none false
      (Or.inl rfl) (by decide)⟩

/-- Claim C10, amended: for every accepted input the `price_position`
equals `"inside_trigger_box"` exactly when `trigger_box.inside` holds, and
`chopzilla` always equals `trigger_box.inside`; when the anchored ATR is
at least `0.001` (so adjacent rounded levels are strictly separated), a
current price exactly on `call_trigger` is classified
`"above_call_trigger"` (bull-side ties use `≥`) and a current price
exactly on `put_trigger` is classified `"below_put_trigger"` (bear-side
ties use strict `>`).  The tie classifications claimed for *every*
accepted input fail for degenerate ATR: with ATR 0 all levels collapse
onto `pdc` and a tied price lands in `"above_full_range"` (see
`C10_counterexample`). -/
theorem C10_boundary_ties (daily : List Bar) (intraday : Option (List Bar))
    (period : ℕ) (ext ucc : Bool) (h2 : 2 ≤ daily.length) :
    ∃ r, atr_levels daily intraday period ext ucc = some r ∧
      (r.price_position = "inside_trigger_box" ↔ r.trigger_box_inside = true) ∧
      r.chopzilla = r.trigger_box_inside ∧
      (1/1000 ≤ atrAt daily period ucc →
        (getQ (daily.map Bar.close) (daily.length - 1) = r.call_trigger →
          r.price_position = "above_call_trigger") ∧
        (getQ (daily.map Bar.close) (daily.length - 1) = r.put_trigger →
          r.price_position = "below_put_trigger")) := by
  refine ⟨_, atr_levels_eq_some _ _ _ _ _ h2, ?_,
    mkAtrLevels_chopzilla _ _ _ _ _, ?_⟩
  · rw [mkAtrLevels_price_position, mkAtrLevels_inside, pricePosition_inside_iff,
      decide_eq_true_eq]
    constructor
    · rintro ⟨_, _, _, hc, hp⟩
      exact ⟨hp, lt_of_not_le hc⟩
    · rintro ⟨hpt, hct⟩
      have hptct : round4 (pdcAt daily ucc - atrAt daily period ucc * (236/1000)) <
          round4 (pdcAt daily ucc + atrAt daily period ucc * (236/1000)) :=
        lt_trans hpt hct
      have hApos : 0 < atrAt daily period ucc := by
        by_contra h0
        push_neg at h0
        have hle : pdcAt daily ucc + atrAt daily period ucc * (236/1000) ≤
            pdcAt daily ucc - atrAt daily period ucc * (236/1000) := by nlinarith
        exact absurd (roundTo_mono 4 hle) (not_le.mpr hptct)
      have hcg : round4 (pdcAt daily ucc + atrAt daily period ucc * (236/1000)) ≤
          round4 (pdcAt daily ucc + atrAt daily period ucc * (382/1000)) :=
        roundTo_mono 4 (by nlinarith)
      have hgm : round4 (pdcAt daily ucc + atrAt daily period ucc * (382/1000)) ≤
          round4 (pdcAt daily ucc + atrAt daily period ucc * (618/1000)) :=
        roundTo_mono 4 (by nlinarith)
      have hmf : round4 (pdcAt daily ucc + atrAt daily period ucc * (618/1000)) ≤
          round4 (pdcAt daily ucc + atrAt daily period ucc * 1) :=
        roundTo_mono 4 (by nlinarith)
      exact ⟨not_le.mpr (lt_of_lt_of_le hct (hcg.trans (hgm.trans hmf))),
        not_le.mpr (lt_of_lt_of_le hct (hcg.trans hgm)),
        not_le.mpr (lt_of_lt_of_le hct hcg), not_le.mpr hct, hpt⟩
  · intro hA1
    have hApos : 0 < atrAt daily period ucc := lt_of_lt_of_le (by norm_num) hA1
    have h4 : ((10 : ℚ)) ^ 4 = 10000 := by norm_num
    constructor
    · intro hcp
      rw [mkAtrLevels_call_trigger] at hcp
      rw [mkAtrLevels_price_position, hcp]
      apply pricePosition_at_call
      · apply roundTo_lt 4
        rw [h4]
        linarith
      · exact roundTo_mono 4 (by nlinarith)
      · exact roundTo_mono 4 (by nlinarith)
    · intro hcp
      rw [mkAtrLevels_put_trigger] at hcp
      rw [mkAtrLevels_price_position, hcp]
      apply pricePosition_at_put
      · apply roundTo_lt 4
        rw [h4]
        linarith
      · exact roundTo_mono 4 (by nlinarith)
      · exact roundTo_mono 4 (by nlinarith)
      · exact roundTo_mono 4 (by nlinarith)
      · apply roundTo_lt 4
        rw [h4]
        linarith

/-- Counterexample to C10 as stated: on a flat series the ATR is 0, every
level and the current price coincide at 50, yet the position is
`"above_full_range"`, not `"above_call_trigger"`. -/
theorem C10_counterexample :
    ∃ r, atr_levels [⟨50, 50, 50, 50⟩, ⟨50, 50, 50, 50⟩] none 14 false false =
        some r ∧
      r.current_price = r.call_trigger ∧
      r.price_position ≠ "above_call_trigger" := by
  refine ⟨_, atr_levels_eq_some _ _ _ _ _ (by decide), ?_, ?_⟩
  · with_unfolding_all decide
  · with_unfolding_all decide

/-- Witness for the amended C10 at a concrete series whose last close sits
exactly on the call trigger (ATR = 4, trigger = 100.944). -/
theorem C10_witness :
    (2 ≤ ([⟨100, 102, 98, 100⟩, ⟨100, 101, 99, 12618/125⟩] : List Bar).length) ∧
    ∃ r, atr_levels [⟨100, 102, 98, 100⟩, ⟨100, 101, 99, 12618/125⟩]
        none 14 false false = some r ∧
      (r.price_position = "inside_trigger_box" ↔ r.trigger_box_inside = true) ∧
      r.chopzilla = r.trigger_box_inside ∧
      (1/1000 ≤ atrAt [⟨100, 102, 98, 100⟩, ⟨100, 101, 99, 12618/125⟩] 14 false →
        (getQ (([⟨100, 102, 98, 100⟩, ⟨100, 101, 99, 12618/125⟩] : List Bar).map
            Bar.close)
            (([⟨100, 102, 98, 100⟩, ⟨100, 101, 99, 12618/125⟩] : List Bar).length - 1) =
            r.call_trigger →
          r.price_position = "above_call_trigger") ∧
        (getQ (([⟨100, 102, 98, 100⟩, ⟨100, 101, 99, 12618/125⟩] : List Bar).map
            Bar.close)
            (([⟨100, 102, 98, 100⟩, ⟨100, 101, 99, 12618/125⟩] : List Bar).length - 1) =
            r.put_trigger →
          r.price_position = "below_put_trigger")) :=
  ⟨by decide,
    C10_boundary_ties [⟨100, 102, 98, 100⟩, ⟨100, 101, 99, 12618/125⟩] none 14
      false false (by decide)⟩

end Satyland
